import Mathlib

/-!
Verification of `src/app.py` (a Streamlit stock-analysis script) against its
natural-language specification.

The program is shallowly embedded: strings are `List Char`, Python floats are
modelled as `ℚ` (the decimal numerals involved are exact in both readings),
exceptions are `Except PyErr`, and every external call (market data, the agent
pipeline) is an oracle argument.  The two regular expressions of the script,
`목표가[:\s]*\$?([\d,.]+)` and `손절가[:\s]*\$?([\d,.]+)`, are deterministic on
their character classes: the separator class `[:\s]`, the literal `$`, and the
numeral class `[\d,.]` are pairwise disjoint, so a greedy maximal-munch scan
coincides with Python backtracking semantics, and `re.search` is the leftmost
position at which the whole pattern matches.  The character classes are taken
at their full Unicode reading: `\d` is the Unicode decimal-digit category
`Nd` (and `float()` likewise accepts `Nd` digits at their decimal values,
mapping them to ASCII before parsing), and `\s` is CPython's whitespace set.
-/

/-- Python exception kinds that the embedded fragments can produce or pass
through.  `agentError` stands for an arbitrary error raised by the underlying
agent / LLM / search / market-data libraries. -/
inductive PyErr where
  | valueError
  | typeError
  | configurationError
  | agentError (code : ℕ)
deriving DecidableEq, Repr

instance {ε α : Type} [DecidableEq ε] [DecidableEq α] : DecidableEq (Except ε α) := fun x y =>
  match x, y with
  | .ok a, .ok b => decidable_of_iff (a = b) ⟨fun h => h ▸ rfl, fun h => by injection h⟩
  | .ok _, .error _ => isFalse (fun h => Except.noConfusion h)
  | .error _, .ok _ => isFalse (fun h => Except.noConfusion h)
  | .error a, .error b => decidable_of_iff (a = b) ⟨fun h => h ▸ rfl, fun h => by injection h⟩

/-- The whitespace code points of CPython's `\s` on `str`: the characters
with bidirectional class WS, B or S, or general category Zs
(`Py_UNICODE_ISSPACE`). -/
def pySpaceCodes : List ℕ :=
  [0x09, 0x0A, 0x0B, 0x0C, 0x0D, 0x1C, 0x1D, 0x1E, 0x1F, 0x20, 0x85, 0xA0,
   0x1680, 0x2000, 0x2001, 0x2002, 0x2003, 0x2004, 0x2005, 0x2006, 0x2007,
   0x2008, 0x2009, 0x200A, 0x2028, 0x2029, 0x202F, 0x205F, 0x3000]

/-- Whether a character is whitespace for Python's `\s`. -/
def isPySpace (c : Char) : Bool := pySpaceCodes.contains c.toNat

/-- Characters matched by `[:\s]` in the script's patterns. -/
def isSep (c : Char) : Bool :=
  c = ':' || isPySpace c

/-- Start code points of the runs of ten consecutive decimal digits that make
up the Unicode decimal-digit category `Nd` (Unicode 15.0, as in current
CPython): each run maps its characters to the digit values 0–9 in order.
Python's `\d` matches exactly these characters, and `float()` accepts them at
those values. -/
def ndStarts : List ℕ :=
  [0x30, 0x660, 0x6F0, 0x7C0, 0x966, 0x9E6, 0xA66, 0xAE6, 0xB66, 0xBE6,
   0xC66, 0xCE6, 0xD66, 0xDE6, 0xE50, 0xED0, 0xF20, 0x1040, 0x1090, 0x17E0,
   0x1810, 0x1946, 0x19D0, 0x1A80, 0x1A90, 0x1B50, 0x1BB0, 0x1C40, 0x1C50,
   0xA620, 0xA8D0, 0xA900, 0xA9D0, 0xA9F0, 0xAA50, 0xABF0, 0xFF10,
   0x104A0, 0x10D30, 0x11066, 0x110F0, 0x11136, 0x111D0, 0x112F0, 0x11450,
   0x114D0, 0x11650, 0x116C0, 0x11730, 0x118E0, 0x11950, 0x11C50, 0x11D50,
   0x11DA0, 0x11F50, 0x16A60, 0x16AC0, 0x16B50, 0x1D7CE, 0x1D7D8, 0x1D7E2,
   0x1D7EC, 0x1D7F6, 0x1E140, 0x1E2F0, 0x1E4F0, 0x1E950, 0x1FBF0]

/-- Whether a character is a Unicode decimal digit (category `Nd`): what
Python's `\d` matches. -/
def isNdDigit (c : Char) : Bool :=
  ndStarts.any (fun s => s ≤ c.toNat && c.toNat < s + 10)

/-- The decimal value of an `Nd` digit (0 for a non-digit; only ever applied
to digits). -/
def ndVal (c : Char) : ℕ :=
  match ndStarts.find? (fun s => s ≤ c.toNat && c.toNat < s + 10) with
  | some s => c.toNat - s
  | none => 0

/-- Characters matched by `[\d,.]` in the script's patterns. -/
def isNumC (c : Char) : Bool :=
  isNdDigit c || c = ',' || c = '.'

/-- Match a literal pattern at the head of a string, returning the remainder. -/
def stripPre (pat cs : List Char) : Option (List Char) :=
  match pat, cs with
  | [], rest => some rest
  | _ :: _, [] => none
  | p :: ps, c :: cs => if c = p then stripPre ps cs else none

/-- Attempt the whole pattern `label[:\s]*\$?([\d,.]+)` at one position,
returning the captured group.  Greedy maximal munch; see the module comment
for why this equals the backtracking semantics here. -/
def matchAt (pat cs : List Char) : Option (List Char) :=
  match stripPre pat cs with
  | none => none
  | some rest =>
    let r1 := rest.dropWhile isSep
    let r2 := match r1 with
      | '$' :: t => t
      | _ => r1
    let grp := r2.takeWhile isNumC
    if grp.isEmpty then none else some grp

/-- `re.search` for the script's patterns: the captured group of the leftmost
position at which the whole pattern matches. -/
def reSearch (pat cs : List Char) : Option (List Char) :=
  match cs with
  | [] => none
  | _ :: rest =>
    match matchAt pat cs with
    | some g => some g
    | none => reSearch pat rest

/-- Whether `pat` occurs as a contiguous substring of the text (Python's
`pat in text`). -/
def occursIn (pat : List Char) : List Char → Bool
  | [] => (stripPre pat []).isSome
  | c :: rest => (stripPre pat (c :: rest)).isSome || occursIn pat rest

/-- The label of the target-price pattern at `src/app.py:149`. -/
def targetLabel : List Char := ['목', '표', '가']

/-- The label of the stop-loss pattern at `src/app.py:150`. -/
def stopLabel : List Char := ['손', '절', '가']

/-- `"".join` free: `str.replace(',', '')` on the captured group. -/
def removeCommas (cs : List Char) : List Char := cs.filter (fun c => c ≠ ',')

/-- Numeric value of a string of `Nd` digits, most significant first (as
CPython maps each decimal digit to its value when parsing). -/
def digitsToNat (cs : List Char) : ℕ :=
  cs.foldl (fun n c => 10 * n + ndVal c) 0

/-- All characters are Unicode decimal digits. -/
def allDigits (cs : List Char) : Bool := cs.all isNdDigit

/-- Python's `float` restricted to strings of `Nd` digits and dots (the only
characters the captured group can contain after comma removal): accepted iff
the string has at most one dot and at least one digit (CPython first maps
every `Nd` digit to its ASCII counterpart); the value is exact as a
rational. -/
def parseFloatQ (cs : List Char) : Option ℚ :=
  let intPart := cs.takeWhile (fun c => c ≠ '.')
  let rest := cs.dropWhile (fun c => c ≠ '.')
  match rest with
  | [] =>
    if cs.isEmpty then none
    else if allDigits cs then some (digitsToNat cs) else none
  | _ :: frac =>
    if allDigits intPart && allDigits frac && !(intPart.isEmpty && frac.isEmpty) then
      some ((digitsToNat intPart : ℚ) + (digitsToNat frac : ℚ) / (10 : ℚ) ^ frac.length)
    else none

/-- `parse_p` at `src/app.py:152`: `float(m.group(1).replace(',', '')) if m
else None`.  A failed `float` is a raised `ValueError`. -/
def parse_p (m : Option (List Char)) : Except PyErr (Option ℚ) :=
  match m with
  | none => .ok none
  | some g =>
    match parseFloatQ (removeCommas g) with
    | some q => .ok (some q)
    | none => .error .valueError

/-- The Price Extractor for the target price: the regex scan at
`src/app.py:149` followed by `parse_p`. -/
def extractTarget (text : List Char) : Except PyErr (Option ℚ) :=
  parse_p (reSearch targetLabel text)

/-- The Price Extractor for the stop-loss price: the regex scan at
`src/app.py:150` followed by `parse_p`. -/
def extractStop (text : List Char) : Except PyErr (Option ℚ) :=
  parse_p (reSearch stopLabel text)

/-- One OHLC row of the downloaded price history (`yf.download` result). -/
structure Ohlc where
  date : ℕ
  open_ : ℚ
  high : ℚ
  low : ℚ
  close : ℚ
deriving DecidableEq, Repr

/-- Python truthiness of an optional float: `None` and `0.0` are falsy. -/
def pyTruthy (o : Option ℚ) : Bool :=
  match o with
  | none => false
  | some q => q ≠ 0

/-- The horizontal reference line drawn for one optional price under the
script's `if target_price:` / `if stop_loss:` guards
(`src/app.py:119` and `src/app.py:123`). -/
def hlineOf (o : Option ℚ) : Option ℚ :=
  if pyTruthy o then o else none

/-- The reference lines of a drawn chart figure. -/
structure ChartFig where
  targetLine : Option ℚ
  stopLine : Option ℚ
deriving DecidableEq, Repr

/-- What `plot_stock_chart` leaves on the page: a "no data" warning, a drawn
chart, or an inline chart-error message (`st.error` in the `except` arm). -/
inductive ChartOut where
  | noData
  | chart (fig : ChartFig)
  | chartError (e : PyErr)
deriving DecidableEq, Repr

/-- The `try` body of `plot_stock_chart` (`src/app.py:101`–`src/app.py:128`).
`dl` is the outcome of the `yf.download` call (the external market-data
fetch, which may itself raise). -/
def plotBody (dl : Except PyErr (List Ohlc)) (target_price stop_loss : Option ℚ) :
    Except PyErr ChartOut :=
  match dl with
  | .error e => .error e
  | .ok df =>
    if df.isEmpty then .ok .noData
    else .ok (.chart { targetLine := hlineOf target_price, stopLine := hlineOf stop_loss })

/-- `plot_stock_chart` (`src/app.py:100`–`src/app.py:130`): the body wrapped
in `try`/`except`, so every internal exception becomes an inline chart
error and nothing propagates to the caller. -/
def plot_stock_chart (dl : Except PyErr (List Ohlc)) (target_price stop_loss : Option ℚ) :
    ChartOut :=
  match plotBody dl target_price stop_loss with
  | .ok out => out
  | .error e => .chartError e

/-- Startup environment setup (`src/app.py:16`–`src/app.py:18`): each secret
is read with `os.getenv` (here the combined environment / `.env` value, or
`none` when absent) and written back with `os.environ[...] = value`; writing
`None` into `os.environ` raises `TypeError`. -/
def envSetup (gemini serper : Option (List Char)) : Except PyErr (List Char × List Char) :=
  match gemini with
  | none => .error .typeError
  | some g =>
    match serper with
    | none => .error .typeError
    | some s => .ok (g, s)

/-- The company snapshot fetched by `yf.Ticker(stock_ticker).info`
(`src/app.py:50`), as far as the script reads it. -/
structure Snapshot where
  currentPrice : Option ℚ
  marketCap : Option ℚ
  forwardPE : Option ℚ
  forwardEps : Option ℚ
deriving DecidableEq, Repr

/-- The opaque object returned by `crew.kickoff()`; the script only converts
it to a string. -/
structure CrewResult where
  toStr : List Char
deriving DecidableEq, Repr

/-- The risk-preference select box values (`src/app.py:138`). -/
inductive Risk where
  | lowest
  | mid
  | high
deriving DecidableEq, Repr

/-- Body of `run_investment_analysis` (`src/app.py:41`–`src/app.py:97`), with
the syntax slip repaired: in the source the `ChatGoogleGenerativeAI(` call
opened at line 43 is never closed, so the file does not parse; this is the
evident intent (close the call at line 47).  The body builds the LLM
configuration, fetches the snapshot (`info`, which may raise), builds the
agent and the task, runs `crew.kickoff()` (`kick`, which may raise), and
returns `str(result_obj)`.  There is no `try`/`except` and no retry, and
`risk_level` is not mentioned anywhere in the body. -/
def run_investment_analysis (stock_ticker : List Char) (risk_level : Risk)
    (info : Except PyErr Snapshot) (kick : Except PyErr CrewResult) :
    Except PyErr (List Char) :=
  match info with
  | .error e => .error e
  | .ok _ =>
    match kick with
    | .error e => .error e
    | .ok r => .ok r.toStr

/-- Cache key of `@st.cache_data`: all parameters of the decorated function,
here `(stock_ticker, risk_level)`. -/
abbrev CKey := List Char × Risk

/-- The in-memory cache of `st.cache_data`: stored value and the time (in
seconds) at which it was stored. -/
abbrev CacheSt := List (CKey × (List Char × ℕ))

/-- Look up the most recently stored entry for a key. -/
def findEntry (st : CacheSt) (k : CKey) : Option (List Char × ℕ) :=
  match st with
  | [] => none
  | (k', v) :: rest => if k' = k then some v else findEntry rest k

/-- Whether the cache holds an unexpired (`ttl=3600` seconds) entry for the
key at time `now`. -/
def hasFresh (st : CacheSt) (k : CKey) (now : ℕ) : Bool :=
  match findEntry st k with
  | none => false
  | some (_, t0) => now < t0 + 3600

/-- The decorated `run_investment_analysis` as called by the page
(`src/app.py:40` applies `@st.cache_data(ttl=3600)`): on an unexpired hit the
stored report is returned and the body does not run; otherwise the body runs
(its first action after building the LLM configuration is the snapshot fetch
at `src/app.py:50`), a raised error propagates and nothing is stored, and a
successful report is stored with the current time.  The returned `Bool` is
`true` iff the body ran on this call. -/
def cachedRun (st : CacheSt) (stock_ticker : List Char) (risk_level : Risk) (now : ℕ)
    (info : Except PyErr Snapshot) (kick : Except PyErr CrewResult) :
    Except PyErr (List Char) × CacheSt × Bool :=
  match findEntry st (stock_ticker, risk_level) with
  | some (v, t0) =>
    if now < t0 + 3600 then (.ok v, st, false)
    else
      match run_investment_analysis stock_ticker risk_level info kick with
      | .error e => (.error e, st, true)
      | .ok v' => (.ok v', ((stock_ticker, risk_level), (v', now)) :: st, true)
  | none =>
    match run_investment_analysis stock_ticker risk_level info kick with
    | .error e => (.error e, st, true)
    | .ok v => (.ok v, ((stock_ticker, risk_level), (v, now)) :: st, true)

/-- What the button handler leaves on the page: on success the chart pane and
the report pane, otherwise the single `st.error` message of the top-level
`except` arm (`src/app.py:169`–`src/app.py:171`), with neither pane rendered. -/
inductive MainOut where
  | success (chart : ChartOut) (report : List Char)
  | errorShown (e : PyErr)
deriving DecidableEq, Repr

/-- The `try` body of the button handler (`src/app.py:145`–`src/app.py:167`):
run the (cached) analysis, extract both prices with `parse_p`, then render the
chart pane (which catches its own errors) and the report pane.  Any exception
raised before the panes render — from the analysis call or from either
`parse_p` — falls through to the top-level `except`. -/
def mainFlow (analysis : Except PyErr (List Char)) (dl : Except PyErr (List Ohlc)) :
    MainOut :=
  match analysis with
  | .error e => .errorShown e
  | .ok result_text =>
    match parse_p (reSearch targetLabel result_text) with
    | .error e => .errorShown e
    | .ok t_val =>
      match parse_p (reSearch stopLabel result_text) with
      | .error e => .errorShown e
      | .ok s_val => .success (plot_stock_chart dl t_val s_val) result_text

/-- Whether the head character of a string belongs to `[\d,.]` (false for the
empty string): the condition under which a greedy numeral capture would be
extended. -/
def headNumC : List Char → Bool
  | [] => false
  | c :: _ => isNumC c

/-- The concrete text fragment of the specification's first testable
property, with the label the script actually uses. -/
def c1seg : List Char := ['목', '표', '가', ':', ' ', '$', '1', ',', '2', '3', '4', '.', '5', '6']

lemma takeWhile_isNumC_eq_nil (s : List Char) (h : headNumC s = false) :
    s.takeWhile isNumC = [] := by
  cases s with
  | nil => rfl
  | cons c t =>
    simp only [headNumC] at h
    simp [List.takeWhile, h]

lemma reSearch_target_skip (p t : List Char) (hp : '목' ∉ p) :
    reSearch targetLabel (p ++ t) = reSearch targetLabel t := by
  induction p with
  | nil => rfl
  | cons c p ih =>
    have hc : c ≠ '목' := fun e => hp (by simp [e])
    have hp' : '목' ∉ p := fun m => hp (List.mem_cons_of_mem _ m)
    have hm : matchAt targetLabel (c :: (p ++ t)) = none := by
      simp [targetLabel, matchAt, stripPre, hc]
    rw [List.cons_append]
    simp only [reSearch, hm]
    exact ih hp'

lemma reSearch_c1seg (s : List Char) (h : headNumC s = false) :
    reSearch targetLabel (c1seg ++ s) = some ['1', ',', '2', '3', '4', '.', '5', '6'] := by
  have ht : List.takeWhile isNumC s = [] := takeWhile_isNumC_eq_nil s h
  show some ('1' :: ',' :: '2' :: '3' :: '4' :: '.' :: '5' :: '6' :: List.takeWhile isNumC s)
      = some ['1', ',', '2', '3', '4', '.', '5', '6']
  rw [ht]

lemma reSearch_none_of_not_occurs (pat text : List Char) (h : occursIn pat text = false) :
    reSearch pat text = none := by
  induction text with
  | nil => rfl
  | cons c rest ih =>
    cases hsp : stripPre pat (c :: rest) with
    | some r =>
      simp only [occursIn, hsp, Option.isSome_some, Bool.true_or] at h
      exact Bool.noConfusion h
    | none =>
      simp only [occursIn, hsp, Option.isSome_none, Bool.false_or] at h
      have hm : matchAt pat (c :: rest) = none := by
        simp [matchAt, hsp]
      simp only [reSearch, hm]
      exact ih h

lemma parse_p_c1_group :
    parse_p (some ['1', ',', '2', '3', '4', '.', '5', '6']) = Except.ok (some (1234.56 : ℚ)) := by
  have d1 : digitsToNat ['1', '2', '3', '4'] = 1234 := by decide
  have d2 : digitsToNat ['5', '6'] = 56 := by decide
  have e : parseFloatQ (removeCommas ['1', ',', '2', '3', '4', '.', '5', '6'])
      = some ((digitsToNat ['1', '2', '3', '4'] : ℚ)
          + (digitsToNat ['5', '6'] : ℚ) / (10 : ℚ) ^ (2 : ℕ)) := rfl
  simp only [parse_p]
  rw [e, d1, d2]
  norm_num

/-- C1 (counterexample): the claim says a reportText containing the English
substring "target price: $1,234.56" yields targetPrice = 1234.56, but the
scan at `src/app.py:149` looks for the Korean label `목표가`, so on that very
text the extractor returns no target price at all. -/
theorem c1_counterexample_english_label :
    extractTarget "target price: $1,234.56".toList = Except.ok none ∧
    extractTarget "target price: $1,234.56".toList ≠ Except.ok (some (1234.56 : ℚ)) := by
  decide

/-- C1 (amended): for every reportText in which the Korean target-price label
`목표가` first occurs immediately followed by `: $1,234.56`, with the numeral
not extended by a further digit, comma or dot, the extractor returns exactly
1234.56: the label matches, the currency symbol and the thousands separator
are tolerated, and the captured numeral parses to 1234.56. -/
theorem c1_amended_extraction (p s : List Char) (hp : '목' ∉ p) (hs : headNumC s = false) :
    extractTarget (p ++ c1seg ++ s) = Except.ok (some (1234.56 : ℚ)) := by
  show parse_p (reSearch targetLabel (p ++ c1seg ++ s)) = _
  rw [List.append_assoc, reSearch_target_skip p (c1seg ++ s) hp, reSearch_c1seg s hs]
  exact parse_p_c1_group

/-- C1 (witness): the amended theorem at `p = []`, `s = []`, i.e. on the exact
reportText `"목표가: $1,234.56"`. -/
theorem c1_extraction_witness :
    extractTarget ([] ++ c1seg ++ []) = Except.ok (some (1234.56 : ℚ)) :=
  c1_amended_extraction [] [] (by simp) (by rfl)

/-- C6: if the stop-loss label `손절가` does not occur in the reportText, the
extractor returns `none` for the stop-loss without raising, and the chart
renderer, given a nonempty history and no stop-loss, draws the chart with no
stop-loss reference line. -/
theorem c6_no_stop_label (text : List Char) (h : occursIn stopLabel text = false) :
    extractStop text = Except.ok none ∧
    ∀ (df : List Ohlc) (tp : Option ℚ), df ≠ [] →
      plot_stock_chart (Except.ok df) tp none
        = ChartOut.chart { targetLine := hlineOf tp, stopLine := none } := by
  constructor
  · show parse_p (reSearch stopLabel text) = _
    rw [reSearch_none_of_not_occurs _ _ h]
    rfl
  · intro df tp hdf
    cases df with
    | nil => exact absurd rfl hdf
    | cons a l => rfl

/-- C6 (witness): a concrete reportText with no `손절가`, and a one-row
history. -/
theorem c6_no_stop_label_witness :
    occursIn stopLabel "목표가: $220 입니다".toList = false ∧
    extractStop "목표가: $220 입니다".toList = Except.ok none ∧
    plot_stock_chart (Except.ok [⟨0, 1, 2, 0, 1⟩]) (some 220) none
      = ChartOut.chart { targetLine := some 220, stopLine := none } := by
  have h := c6_no_stop_label "목표가: $220 입니다".toList (by decide)
  refine ⟨by decide, h.1, ?_⟩
  have h2 := h.2 [⟨0, 1, 2, 0, 1⟩] (some 220) (by simp)
  have htp : pyTruthy (some (220 : ℚ)) = true := by norm_num [pyTruthy]
  simpa [hlineOf, htp] using h2

/-- C7: on an empty downloaded price history the chart renderer signals the
"no data" condition instead of drawing a chart, and an exception raised
inside its body (here: by the download itself) is caught and shown as an
inline chart error — `plot_stock_chart` is a total function into `ChartOut`
and never propagates an exception to its caller. -/
theorem c7_empty_history_no_raise (tp sl : Option ℚ) :
    plot_stock_chart (Except.ok []) tp sl = ChartOut.noData ∧
    ∀ e : PyErr, plot_stock_chart (Except.error e) tp sl = ChartOut.chartError e :=
  ⟨rfl, fun _ => rfl⟩

/-- C8 (counterexample): the claim says a present targetPrice of 0.0 gets a
reference line, but the guard `if target_price:` at `src/app.py:119` is
Python truthiness, so with `target_price = 0.0` present no target line is
drawn (while the stop-loss line is). -/
theorem c8_counterexample_zero_price :
    plot_stock_chart (Except.ok [⟨0, 1, 2, 0, 1⟩]) (some 0) (some 5)
      = ChartOut.chart { targetLine := none, stopLine := some 5 } := by
  have h0 : pyTruthy (some (0 : ℚ)) = false := by norm_num [pyTruthy]
  have h5 : pyTruthy (some (5 : ℚ)) = true := by norm_num [pyTruthy]
  simp [plot_stock_chart, plotBody, hlineOf, h0, h5]

/-- C8 (amended): on a nonempty history, each reference line is drawn exactly
when its own field is present and nonzero (Python truthiness; 0.0 counts as
absent), at that price; each line is a function of its own field alone. -/
theorem c8_amended_hlines (df : List Ohlc) (tp sl : Option ℚ) (h : df ≠ []) :
    plot_stock_chart (Except.ok df) tp sl
      = ChartOut.chart { targetLine := if pyTruthy tp then tp else none,
                         stopLine := if pyTruthy sl then sl else none } := by
  cases df with
  | nil => exact absurd rfl h
  | cons a l => rfl

/-- C8 (witness): the amended theorem on a one-row history with a nonzero
target and an absent stop-loss. -/
theorem c8_amended_hlines_witness :
    plot_stock_chart (Except.ok [⟨0, 1, 2, 0, 1⟩]) (some 3) none
      = ChartOut.chart { targetLine := if pyTruthy (some 3) then some 3 else none,
                         stopLine := if pyTruthy none then none else none } :=
  c8_amended_hlines [⟨0, 1, 2, 0, 1⟩] (some 3) none (by simp)

/-- C10: whenever the target-price pattern matches but the captured token is
not a valid numeral after comma removal, `parse_p` raises `ValueError`; the
exception reaches the top-level `except` arm, which shows the single error
message and renders neither the chart pane nor the report pane. -/
theorem c10_invalid_numeral_valueerror (text : List Char) (dl : Except PyErr (List Ohlc))
    (g : List Char) (h1 : reSearch targetLabel text = some g)
    (h2 : parseFloatQ (removeCommas g) = none) :
    mainFlow (Except.ok text) dl = MainOut.errorShown PyErr.valueError := by
  simp [mainFlow, parse_p, h1, h2]

/-- C10 (witness): the reportText `"목표가: $1,234.56."` — the trailing
sentence period is captured into the numeric group, `float("1234.56.")`
raises `ValueError`, and the whole request ends in the top-level error
message. -/
theorem c10_invalid_numeral_witness :
    reSearch targetLabel "목표가: $1,234.56.".toList = some "1,234.56.".toList ∧
    parseFloatQ (removeCommas "1,234.56.".toList) = none ∧
    mainFlow (Except.ok "목표가: $1,234.56.".toList) (Except.ok [])
      = MainOut.errorShown PyErr.valueError :=
  ⟨by decide, by decide,
    c10_invalid_numeral_valueerror _ _ ("1,234.56.".toList) (by decide) (by decide)⟩

/-- C2 (intent of the broken code): the body of `run_investment_analysis`,
with the unclosed `ChatGoogleGenerativeAI(` call of `src/app.py:43` repaired,
returns the agent pipeline's result converted to a string, and an error
raised by the snapshot fetch or by `crew.kickoff()` propagates unchanged —
there is no `try`/`except`, no retry and no swallowing in the body. -/
theorem c2_repaired_behavior (t : List Char) (r : Risk) (e : PyErr) (snap : Snapshot)
    (res : CrewResult) :
    run_investment_analysis t r (Except.error e) (Except.ok res) = Except.error e ∧
    run_investment_analysis t r (Except.ok snap) (Except.error e) = Except.error e ∧
    run_investment_analysis t r (Except.ok snap) (Except.ok res) = Except.ok res.toStr :=
  ⟨rfl, rfl, rfl⟩

/-- C3: starting from an empty cache, a first call at `t1` runs the pipeline;
a second call with identical `(ticker, risk)` at `t2` within the hour returns
the cached report with the pipeline not run; a third call at `t3` at or after
expiry runs the pipeline again. -/
theorem c3_ttl_cache (tick : List Char) (r : Risk) (t1 t2 t3 : ℕ) (snap : Snapshot)
    (res : CrewResult) (h12 : t2 < t1 + 3600) (h13 : t1 + 3600 ≤ t3) :
    (cachedRun [] tick r t1 (Except.ok snap) (Except.ok res)).2.2 = true ∧
    cachedRun (cachedRun [] tick r t1 (Except.ok snap) (Except.ok res)).2.1
        tick r t2 (Except.ok snap) (Except.ok res)
      = (Except.ok res.toStr, (cachedRun [] tick r t1 (Except.ok snap) (Except.ok res)).2.1,
          false) ∧
    (cachedRun (cachedRun [] tick r t1 (Except.ok snap) (Except.ok res)).2.1
        tick r t3 (Except.ok snap) (Except.ok res)).2.2 = true := by
  have e1 : cachedRun [] tick r t1 (Except.ok snap) (Except.ok res)
      = (Except.ok res.toStr, [((tick, r), (res.toStr, t1))], true) := rfl
  have e2 : cachedRun [((tick, r), (res.toStr, t1))] tick r t2 (Except.ok snap) (Except.ok res)
      = (Except.ok res.toStr, [((tick, r), (res.toStr, t1))], false) := by
    simp [cachedRun, findEntry, h12]
  have e3 : (cachedRun [((tick, r), (res.toStr, t1))] tick r t3 (Except.ok snap)
      (Except.ok res)).2.2 = true := by
    simp [cachedRun, findEntry, run_investment_analysis, Nat.not_lt.mpr h13]
  refine ⟨by rw [e1], ?_, ?_⟩
  · rw [e1]
    exact e2
  · rw [e1]
    exact e3

/-- C3 (witness): ticker "NVDA", risk "Mid risk", calls at 0 s, 1 s and
3600 s. -/
theorem c3_ttl_cache_witness :
    (1 < 0 + 3600 ∧ 0 + 3600 ≤ 3600) ∧
    ((cachedRun [] ['N', 'V', 'D', 'A'] Risk.mid 0 (Except.ok ⟨none, none, none, none⟩)
        (Except.ok ⟨['r']⟩)).2.2 = true ∧
      cachedRun (cachedRun [] ['N', 'V', 'D', 'A'] Risk.mid 0
          (Except.ok ⟨none, none, none, none⟩) (Except.ok ⟨['r']⟩)).2.1
          ['N', 'V', 'D', 'A'] Risk.mid 1 (Except.ok ⟨none, none, none, none⟩)
          (Except.ok ⟨['r']⟩)
        = (Except.ok (CrewResult.mk ['r']).toStr,
            (cachedRun [] ['N', 'V', 'D', 'A'] Risk.mid 0
              (Except.ok ⟨none, none, none, none⟩) (Except.ok ⟨['r']⟩)).2.1, false) ∧
      (cachedRun (cachedRun [] ['N', 'V', 'D', 'A'] Risk.mid 0
          (Except.ok ⟨none, none, none, none⟩) (Except.ok ⟨['r']⟩)).2.1
          ['N', 'V', 'D', 'A'] Risk.mid 3600 (Except.ok ⟨none, none, none, none⟩)
          (Except.ok ⟨['r']⟩)).2.2 = true) :=
  ⟨⟨by decide, by decide⟩,
    c3_ttl_cache ['N', 'V', 'D', 'A'] Risk.mid 0 1 3600 ⟨none, none, none, none⟩ ⟨['r']⟩
      (by decide) (by decide)⟩

/-- C4 (counterexample): with the LLM key absent and the search key present,
startup fails with a `TypeError` from `os.environ["GEMINI_API_KEY"] = None`
(`src/app.py:17`), which is not a configuration error. -/
theorem c4_counterexample_typeerror :
    envSetup none (some ['k']) = Except.error PyErr.typeError ∧
    PyErr.typeError ≠ PyErr.configurationError := by
  decide

/-- C4 (amended): the startup environment setup fails — fast, before any
agent-library code runs — exactly when one of the two secrets is absent, but
the failure is a `TypeError`, not a clear configuration error. -/
theorem c4_amended_fail_fast (g s : Option (List Char)) :
    envSetup g s = Except.error PyErr.typeError ↔ (g = none ∨ s = none) := by
  cases g <;> cases s <;> simp [envSetup]

/-- C5 (counterexample): a repeated request with the identical
`(ticker, riskPreference)` pair ten seconds later is served from the cache
and the pipeline body — whose first action is the snapshot fetch at
`src/app.py:50` — does not run, so no new snapshot fetch occurs. -/
theorem c5_counterexample_cached_snapshot :
    (cachedRun [] ['N', 'V', 'D', 'A'] Risk.mid 0 (Except.ok ⟨none, none, none, none⟩)
      (Except.ok ⟨['r']⟩)).2.2 = true ∧
    (cachedRun (cachedRun [] ['N', 'V', 'D', 'A'] Risk.mid 0
        (Except.ok ⟨none, none, none, none⟩) (Except.ok ⟨['r']⟩)).2.1
        ['N', 'V', 'D', 'A'] Risk.mid 10 (Except.ok ⟨none, none, none, none⟩)
        (Except.ok ⟨['r']⟩)).2.2 = false := by
  decide

/-- C5 (amended): the snapshot fetch occurs exactly on the calls whose
`(ticker, riskPreference)` key has no unexpired cache entry; a repeated
identical request within the hour is answered from the cache with no new
fetch. -/
theorem c5_amended_fetch_iff_miss (st : CacheSt) (tick : List Char) (r : Risk) (now : ℕ)
    (info : Except PyErr Snapshot) (kick : Except PyErr CrewResult) :
    (cachedRun st tick r now info kick).2.2 = !(hasFresh st (tick, r) now) := by
  rcases hf : findEntry st (tick, r) with _ | ⟨v, t0⟩
  · simp only [cachedRun, hasFresh, hf]
    cases run_investment_analysis tick r info kick <;> simp
  · simp only [cachedRun, hasFresh, hf]
    by_cases h : now < t0 + 3600
    · simp [h]
    · simp only [if_neg h, h]
      cases run_investment_analysis tick r info kick <;> simp

/-- C9: the body of `run_investment_analysis` never mentions `risk_level`, so
the generated report is independent of the risk preference; the preference
only enters the cache key, so a repeated query with a different risk
preference recomputes instead of hitting the cache. -/
theorem c9_risk_unused (tick : List Char) (r r' : Risk) (info : Except PyErr Snapshot)
    (kick : Except PyErr CrewResult) (snap : Snapshot) (res : CrewResult) (h : r ≠ r') :
    run_investment_analysis tick r info kick = run_investment_analysis tick r' info kick ∧
    (cachedRun (cachedRun [] tick r 0 (Except.ok snap) (Except.ok res)).2.1
        tick r' 10 (Except.ok snap) (Except.ok res)).2.2 = true := by
  refine ⟨rfl, ?_⟩
  have e1 : cachedRun [] tick r 0 (Except.ok snap) (Except.ok res)
      = (Except.ok res.toStr, [((tick, r), (res.toStr, 0))], true) := rfl
  rw [e1]
  simp [cachedRun, findEntry, run_investment_analysis, h]

/-- C9 (witness): ticker "NVDA", risks "Mid risk" and "High risk". -/
theorem c9_risk_unused_witness :
    run_investment_analysis ['N', 'V', 'D', 'A'] Risk.mid
        (Except.ok ⟨none, none, none, none⟩) (Except.ok ⟨['r']⟩)
      = run_investment_analysis ['N', 'V', 'D', 'A'] Risk.high
        (Except.ok ⟨none, none, none, none⟩) (Except.ok ⟨['r']⟩) ∧
    (cachedRun (cachedRun [] ['N', 'V', 'D', 'A'] Risk.mid 0
        (Except.ok ⟨none, none, none, none⟩) (Except.ok ⟨['r']⟩)).2.1
        ['N', 'V', 'D', 'A'] Risk.high 10 (Except.ok ⟨none, none, none, none⟩)
        (Except.ok ⟨['r']⟩)).2.2 = true :=
  c9_risk_unused ['N', 'V', 'D', 'A'] Risk.mid Risk.high
    (Except.ok ⟨none, none, none, none⟩) (Except.ok ⟨['r']⟩)
    ⟨none, none, none, none⟩ ⟨['r']⟩ (by decide)
